import Mathlib

/-!
Shallow embedding of `axios-oauth2-token-refresher` (src/src/index.ts).

The library wraps an axios instance with OAuth2 token management:
a storage layer (`getStorage`/`setStorage`/`clearStorage`), a refresh
operation (`obtainNewAccessToken`), a single-flight closure
(`refreshExpiredTokenClosure`), and two interceptors installed by
`setupInterceptors` (a request gate and a 401 response-recovery handler).

Machine state that the source keeps implicitly (browser storages, the
closure variables `isCalled`/`runningPromise`, the axios network call)
is made explicit: storages become a total map with the empty string
standing for an absent entry (matching the falsy `|| defaultValue`
reads), the closure becomes a step function on an explicit environment,
and the awaited network call becomes an input describing its outcome.
-/

/-- Storage backends, from the `Storages` enum of the source. -/
inductive Storages where
  | localStorage
  | sessionStorage
  | cookie
deriving DecidableEq, Repr

/-- Combined state of the three browser storages: one string per backend
and key. The empty string models an absent entry; the source reads every
entry through `... || defaultValue`, under which absent (`null`) and the
empty string are indistinguishable. -/
def Store : Type := Storages → String → String

/-- Store in which every entry is absent. -/
def Store.empty : Store := fun _ _ => ""

/-- Body of the refresher response (`response.data`), as consumed by the
source: an `accessToken` field and an optional `refreshToken` field.
`none` models an absent (`undefined`) field. -/
structure TokenBody where
  accessToken : String
  refreshToken : Option String
deriving Repr

/-- Configuration object, from the `AxiosInstanceOptions` interface of the
source (src/src/index.ts lines 17-30). The interface has exactly these
fields; in particular it has no `isBearer` flag and no
`tokenRefresherPayloadGenerator`. -/
structure AxiosInstanceOptions where
  baseURL : String
  accessTokenStorage : Storages
  refreshTokenStorage : Storages
  accessTokenStorageKey : String
  refreshTokenStorageKey : String
  accessTokenRefresherEndpoint : String
  accessTokenGetterFnFromRefresherResponse : Option (TokenBody → String)
  refreshTokenGetterFnFromRefresherResponse : Option (TokenBody → String)

/-- The private `getStorage` method: reads one entry, returning
`defaultValue` when the stored value is falsy (absent or empty). -/
def getStorage (store : Store) (storage : Storages) (key defaultValue : String) :
    String :=
  if store storage key = "" then defaultValue else store storage key

/-- The private `setStorage` method: writes one entry of one backend. -/
def setStorage (store : Store) (storage : Storages) (key value : String) :
    Store :=
  fun s k => if s = storage ∧ k = key then value else store s k

/-- The `clearStorage` method: writes the empty string to the access-token
entry and then to the refresh-token entry. -/
def clearStorage (opts : AxiosInstanceOptions) (store : Store) : Store :=
  setStorage
    (setStorage store opts.accessTokenStorage opts.accessTokenStorageKey "")
    opts.refreshTokenStorage opts.refreshTokenStorageKey ""

/-- Outcome of the network round trip attempted by `axios.post`: either a
transport error or a response with a status and body. -/
inductive NetOutcome where
  | transportError
  | response (status : Nat) (body : TokenBody)
deriving Repr

/-- Behaviour of the awaited `axios.post` call: with the axios default
`validateStatus`, a response with status in [200, 300) resolves and every
other status rejects, as does a transport error. -/
def axiosPost (net : NetOutcome) : Except Unit (Nat × TokenBody) :=
  match net with
  | .transportError => .error ()
  | .response status body =>
      if 200 ≤ status ∧ status < 300 then .ok (status, body) else .error ()

/-- Body POSTed to the refresher endpoint. The source builds the object
literal `{token: <stored refresh token>}` inline (src/src/index.ts lines
114-120); no payload-generator option exists in the interface. -/
structure RefreshPayload where
  token : String
deriving DecidableEq, Repr

/-- The three throw sites of the refresh path: the synchronous guard for a
missing `accessTokenRefresherEndpoint`, the catch-block rethrow, and the
fall-through after a 2xx response whose status is not 200. -/
inductive RefreshErr where
  | configMissing
  | refreshFailed
  | unableToObtain
deriving DecidableEq, Repr

/-- Value the refresh path resolves with, from the `TokenResponse`
interface; the source always supplies both fields, defaulting each to the
empty string. -/
structure TokenResponse where
  accessToken : String
  refreshToken : String
deriving DecidableEq, Repr

/-- Access token extracted from the refresher response body: the
configured getter when present, otherwise `response.data.accessToken`. -/
def foundAccessToken (opts : AxiosInstanceOptions) (body : TokenBody) :
    String :=
  match opts.accessTokenGetterFnFromRefresherResponse with
  | some f => f body
  | none => body.accessToken

/-- Refresh token extracted from the refresher response body: the
configured getter when present, otherwise `response.data.refreshToken`
(possibly absent). -/
def foundRefreshToken (opts : AxiosInstanceOptions) (body : TokenBody) :
    Option String :=
  match opts.refreshTokenGetterFnFromRefresherResponse with
  | some f => some (f body)
  | none => body.refreshToken

/-- Truthiness of the extracted refresh token as tested by
`if (foundRefreshToken)`: absent and empty are falsy. -/
def truthyToken (o : Option String) : Bool :=
  match o with
  | some s => s ≠ ""
  | none => false

/-- Result of one run of `obtainNewAccessToken`: the storage state it
leaves behind, the payload it POSTed (if a POST happened at all), and the
settled value of its promise. -/
structure ObtainResult where
  store : Store
  posted : Option RefreshPayload
  result : Except RefreshErr TokenResponse

/-- The private `obtainNewAccessToken` method. Faithful control flow:
the missing-endpoint guard throws before the try block (so it clears
nothing); a rejected `axios.post` (transport error or non-2xx status)
lands in the catch block, which clears storage and rethrows; a 200
response extracts and persists the tokens; a 2xx status other than 200
falls past the try/catch to the final throw (clearing nothing). -/
def obtainNewAccessToken (opts : AxiosInstanceOptions) (store : Store)
    (net : NetOutcome) : ObtainResult :=
  if opts.accessTokenRefresherEndpoint = "" then
    ⟨store, none, .error .configMissing⟩
  else
    let payload : RefreshPayload :=
      ⟨getStorage store opts.refreshTokenStorage opts.refreshTokenStorageKey ""⟩
    match axiosPost net with
    | .error _ => ⟨clearStorage opts store, some payload, .error .refreshFailed⟩
    | .ok (status, body) =>
      if status = 200 then
        let newAccess := foundAccessToken opts body
        let store1 := setStorage store opts.accessTokenStorage
          opts.accessTokenStorageKey newAccess
        let newRefresh := foundRefreshToken opts body
        let store2 :=
          if truthyToken newRefresh then
            setStorage store1 opts.refreshTokenStorage
              opts.refreshTokenStorageKey (newRefresh.getD "")
          else store1
        ⟨store2, some payload, .ok ⟨newAccess, newRefresh.getD ""⟩⟩
      else ⟨store, some payload, .error .unableToObtain⟩

/-- The `.then` continuation inside `refreshExpiredTokenClosure` (lines
170-185): persist the access token, persist the refresh token when
truthy, and resolve with the access token. -/
def refreshThen (opts : AxiosInstanceOptions) (store : Store)
    (tr : TokenResponse) : Store × String :=
  let s1 := setStorage store opts.accessTokenStorage
    opts.accessTokenStorageKey tr.accessToken
  let s2 :=
    if tr.refreshToken ≠ "" then
      setStorage s1 opts.refreshTokenStorage opts.refreshTokenStorageKey
        tr.refreshToken
    else s1
  (s2, tr.accessToken)

/-- State of the single-flight closure built by
`refreshExpiredTokenClosure`, together with bookkeeping for the proofs:
the captured variables `isCalled` and `runningPromise` (promises are
identified by numeric ids), a counter of how many times
`obtainNewAccessToken` has been started (each start performs at most one
POST to the refresher endpoint, and exactly one when the endpoint is
configured and the request goes out), and a supply of fresh promise ids. -/
structure ClosureEnv where
  isCalled : Bool
  runningPromise : Option Nat
  obtainStarts : Nat
  nextId : Nat
deriving DecidableEq, Repr

/-- One invocation of the function returned by
`refreshExpiredTokenClosure`: if a refresh is in flight, return the
running promise (`runningPromise!`) without starting anything; otherwise
set `isCalled`, start `obtainNewAccessToken` as a fresh promise, and
return it. The `.finally` reset to idle happens only when that promise
settles, which in the single-threaded execution model is after every
concurrent caller has already joined. -/
def refreshExpiredToken (env : ClosureEnv) : ClosureEnv × Nat :=
  if env.isCalled then (env, env.runningPromise.getD 0)
  else
    ({ isCalled := true
       runningPromise := some env.nextId
       obtainStarts := env.obtainStarts + 1
       nextId := env.nextId + 1 }, env.nextId)

/-- Sequential invocations of the closure by n concurrent callers. The
execution model is the single-threaded event loop: callers that arrive
while the refresh is in flight each run the closure body to completion
before the promise settles. -/
def refreshExpiredTokenCalls : Nat → ClosureEnv → ClosureEnv × List Nat
  | 0, env => (env, [])
  | n + 1, env =>
      let r1 := refreshExpiredToken env
      let r2 := refreshExpiredTokenCalls n r1.1
      (r2.1, r1.2 :: r2.2)

/-- The `.finally` handler: once the running promise settles, reset the
captured variables so the next caller starts a fresh attempt. -/
def refreshSettled (env : ClosureEnv) : ClosureEnv :=
  { env with isCalled := false, runningPromise := none }

/-- An outgoing request as the interceptors see it: its url and its
`headers.Authorization` entry. -/
structure Req where
  url : String
  authorization : String
deriving DecidableEq, Repr

/-- Modelled from the spec: the `jwtDecode` helper is imported from
`./jwt-decode`, whose source is not part of src/. Per the spec,
ClaimDecoder extracts the unverified `{exp}` claim from a well-formed
access token and fails on a malformed one, and a decode failure during
the expiry check is treated as expired rather than surfaced. We model
token strings as carrying their claim literally: a token of the form
`exp:<digits>` decodes to that exp (seconds since epoch); any other
string is malformed and yields no claim, which the expiry check below
treats as expired. -/
def jwtDecode (token : String) : Option Nat :=
  match token.data with
  | 'e' :: 'x' :: 'p' :: ':' :: rest =>
      if rest ≠ [] ∧ rest.all (fun c => c.isDigit) then
        some (rest.foldl (fun n c => n * 10 + (c.toNat - 48)) 0)
      else none
  | _ => none

/-- Errors with which the request interceptor can reject the request: a
rejection of the awaited refresh promise, or (never produced by the
code, kept so that non-surfacing is expressible) a decode error. -/
inductive InterceptErr where
  | refreshErr (e : RefreshErr)
  | decodeErr
deriving DecidableEq, Repr

/-- Result of the request interceptor: the settled request (or the error
it rejects with) and whether it awaited the refresh closure. -/
structure InterceptResult where
  result : Except InterceptErr Req
  refreshAwaited : Bool
deriving Repr

/-- The request interceptor installed by `setupInterceptors` (lines
196-222): re-read the access token from storage, write it raw into
`headers.Authorization`, decode its exp claim, compare
`new Date(exp * 1000) < new Date()` (milliseconds, strict), and when
expired await the refresh closure and overwrite the header with the
returned token. `refresh` is the settled outcome of that awaited
promise; `nowMs` is the current time in milliseconds. -/
def requestInterceptor (opts : AxiosInstanceOptions) (store : Store)
    (nowMs : Nat) (req : Req) (refresh : Except RefreshErr String) :
    InterceptResult :=
  let accessToken :=
    getStorage store opts.accessTokenStorage opts.accessTokenStorageKey ""
  let req1 : Req := { req with authorization := accessToken }
  let isExpired :=
    match jwtDecode accessToken with
    | some exp => decide (exp * 1000 < nowMs)
    | none => true
  if isExpired then
    match refresh with
    | .ok t => ⟨.ok { req1 with authorization := t }, true⟩
    | .error e => ⟨.error (.refreshErr e), true⟩
  else ⟨.ok req1, false⟩

/-- The failed response as the error handler sees it:
`error?.response?.status` (absent on transport errors) and
`error.config`, the original request. -/
structure ErrorInfo where
  status : Option Nat
  config : Req
deriving DecidableEq, Repr

/-- What the response error handler does with the failed response:
propagate the same rejection unchanged, reject with the error of the
awaited refresh, or resubmit a request through the same axios
instance. -/
inductive RecoveryOutcome where
  | passThrough
  | refreshFailed (e : RefreshErr)
  | resubmit (req : Req)
deriving DecidableEq, Repr

/-- Result of the response error handler: the storage state it leaves
behind, whether it awaited the refresh closure, and its outcome. -/
structure RecoveryResult where
  store : Store
  refreshAwaited : Bool
  outcome : RecoveryOutcome

/-- The response error handler installed by `setupInterceptors` (lines
224-245): a 401 whose originating request url equals the configured
refresher endpoint clears storage and propagates the rejection; any
other 401 awaits the refresh closure, overwrites the original request's
Authorization header with the returned token, and resubmits that request
through `this.axiosInstance` (the same intercepted instance); everything
else propagates unchanged. -/
def responseErrorInterceptor (opts : AxiosInstanceOptions) (store : Store)
    (err : ErrorInfo) (refresh : Except RefreshErr String) : RecoveryResult :=
  if err.status = some 401 ∧
      err.config.url = opts.accessTokenRefresherEndpoint then
    ⟨clearStorage opts store, false, .passThrough⟩
  else if err.status = some 401 then
    match refresh with
    | .ok t => ⟨store, true, .resubmit { err.config with authorization := t }⟩
    | .error e => ⟨store, true, .refreshFailed e⟩
  else ⟨store, false, .passThrough⟩

/-- One full settling of the promise built by the closure:
`obtainNewAccessToken` followed, on success, by the `.then` step.
Returns the final storage state, the POSTed payload if any, and the
settled value of the refresh promise. -/
def refreshRound (opts : AxiosInstanceOptions) (store : Store)
    (net : NetOutcome) : Store × Option RefreshPayload × Except RefreshErr String :=
  match obtainNewAccessToken opts store net with
  | ⟨s, p, .error e⟩ => (s, p, .error e)
  | ⟨s, p, .ok tr⟩ =>
      let r := refreshThen opts s tr
      (r.1, p, .ok r.2)

/-- Concrete configuration used by witnesses: the scenario configuration
of the spec, with distinct storage keys and default extractors. -/
def optsDefault : AxiosInstanceOptions where
  baseURL := "http://localhost:5000"
  accessTokenStorage := .localStorage
  refreshTokenStorage := .localStorage
  accessTokenStorageKey := "ak"
  refreshTokenStorageKey := "rk"
  accessTokenRefresherEndpoint := "/token"
  accessTokenGetterFnFromRefresherResponse := none
  refreshTokenGetterFnFromRefresherResponse := none

/-- Concrete configuration with the refresher endpoint left empty. -/
def optsNoEndpoint : AxiosInstanceOptions :=
  { optsDefault with accessTokenRefresherEndpoint := "" }

/-- Concrete storage state holding an access token and a refresh token. -/
def storeWithTokens : Store :=
  setStorage (setStorage Store.empty .localStorage "ak" "AT")
    .localStorage "rk" "RT"

/- Helper lemmas about the storage map. -/

theorem setStorage_same (store : Store) (b : Storages) (k v : String) :
    setStorage store b k v b k = v := by
  simp [setStorage]

theorem setStorage_other (store : Store) (b : Storages) (k v : String)
    (s : Storages) (k2 : String) (h : s ≠ b ∨ k2 ≠ k) :
    setStorage store b k v s k2 = store s k2 := by
  have hc : ¬ (s = b ∧ k2 = k) := by
    rintro ⟨rfl, rfl⟩
    rcases h with h | h <;> exact h rfl
  simp [setStorage, hc]

theorem clearStorage_access (opts : AxiosInstanceOptions) (store : Store) :
    clearStorage opts store opts.accessTokenStorage
      opts.accessTokenStorageKey = "" := by
  simp [clearStorage, setStorage]

theorem clearStorage_refresh (opts : AxiosInstanceOptions) (store : Store) :
    clearStorage opts store opts.refreshTokenStorage
      opts.refreshTokenStorageKey = "" := by
  simp [clearStorage, setStorage]

theorem getD_empty_of_not_truthy (o : Option String)
    (h : truthyToken o = false) : o.getD "" = "" := by
  cases o with
  | none => rfl
  | some s =>
      simp [truthyToken] at h
      simp [h]

/-- Helper for the single-flight claim: while the refresh is in flight,
any number of closure invocations change nothing and all return the
running promise. -/
theorem refreshCalls_inflight (N : Nat) (env : ClosureEnv) (p : Nat)
    (h1 : env.isCalled = true) (h2 : env.runningPromise = some p) :
    refreshExpiredTokenCalls N env = (env, List.replicate N p) := by
  induction N with
  | zero => simp [refreshExpiredTokenCalls]
  | succ n ih =>
      simp [refreshExpiredTokenCalls, refreshExpiredToken, h1, h2, ih,
        List.replicate]

/-- C1: while the stored access token is expired and a refresh is
already in flight (the closure state is running with promise p), any
number N of concurrent invocations of the refresh closure start no new
`obtainNewAccessToken` (so no POST beyond the single one already in
flight is made), every invocation returns the very same running promise
p, and hence every caller observes the same settled result; and when no
refresh is in flight, N concurrent invocations start exactly one. -/
theorem claim1_single_flight (N : Nat) (env : ClosureEnv) (p : Nat) :
    (env.isCalled = true → env.runningPromise = some p →
      refreshExpiredTokenCalls N env = (env, List.replicate N p) ∧
      ∀ settle : Nat → Except RefreshErr String,
        ((refreshExpiredTokenCalls N env).2).map settle =
          List.replicate N (settle p)) ∧
    (env.isCalled = false → 1 ≤ N →
      (refreshExpiredTokenCalls N env).1.obtainStarts =
        env.obtainStarts + 1 ∧
      (refreshExpiredTokenCalls N env).2 = List.replicate N env.nextId) := by
  constructor
  · intro h1 h2
    have hmain := refreshCalls_inflight N env p h1 h2
    refine ⟨hmain, ?_⟩
    intro settle
    rw [hmain]
    simp [List.map_replicate]
  · intro h1 hN
    obtain ⟨n, rfl⟩ : ∃ n, N = n + 1 := ⟨N - 1, (Nat.succ_pred_eq_of_pos hN).symm⟩
    have hstep : refreshExpiredToken env =
        ({ isCalled := true, runningPromise := some env.nextId,
           obtainStarts := env.obtainStarts + 1,
           nextId := env.nextId + 1 }, env.nextId) := by
      simp [refreshExpiredToken, h1]
    have hrest := refreshCalls_inflight n
      { isCalled := true, runningPromise := some env.nextId,
        obtainStarts := env.obtainStarts + 1, nextId := env.nextId + 1 }
      env.nextId rfl rfl
    simp [refreshExpiredTokenCalls, hstep, hrest, List.replicate]

/-- C1 witness: with a refresh in flight as promise 7, three concurrent
callers all receive promise 7 and the closure state (including the count
of started refresh operations) is unchanged; from idle, two concurrent
callers start exactly one refresh operation. -/
theorem claim1_single_flight_witness :
    refreshExpiredTokenCalls 3 ⟨true, some 7, 1, 8⟩ =
      (⟨true, some 7, 1, 8⟩, List.replicate 3 7) ∧
    (refreshExpiredTokenCalls 2 ⟨false, none, 0, 5⟩).1.obtainStarts = 1 := by
  refine ⟨((claim1_single_flight 3 ⟨true, some 7, 1, 8⟩ 7).1 rfl rfl).1, ?_⟩
  have h := ((claim1_single_flight 2 ⟨false, none, 0, 5⟩ 0).2 rfl (by decide)).1
  simpa using h

/-- C2 counterexample: with the refresher endpoint missing from the
configuration, the refresh operation rejects but does not clear storage:
the stored access token "AT" is still present afterwards, contradicting
the claim that every refresh failure (including a missing
`accessTokenRefresherEndpoint`) sets both entries to the empty string.
In the source the missing-endpoint throw happens before the try block,
so the catch that calls `clearStorage` is never reached. -/
theorem claim2_counterexample :
    (obtainNewAccessToken optsNoEndpoint storeWithTokens
        NetOutcome.transportError).result =
      Except.error RefreshErr.configMissing ∧
    (obtainNewAccessToken optsNoEndpoint storeWithTokens
        NetOutcome.transportError).store Storages.localStorage "ak" =
      "AT" := by
  constructor
  · rfl
  · decide

/-- C2 as amended: when the refresher endpoint is configured and the
POST itself rejects — a transport error, or a response whose status the
HTTP client treats as an error (outside [200, 300)) — the refresh
operation clears both the access-token and refresh-token storage entries
and rejects with the refresh failure; a missing endpoint configuration
instead rejects synchronously without touching storage (see the
counterexample). -/
theorem claim2_clears_on_post_rejection (opts : AxiosInstanceOptions)
    (store : Store) (net : NetOutcome)
    (hend : opts.accessTokenRefresherEndpoint ≠ "")
    (hfail : net = NetOutcome.transportError ∨
      ∃ s b, net = NetOutcome.response s b ∧ (s < 200 ∨ 300 ≤ s)) :
    (obtainNewAccessToken opts store net).result =
      Except.error RefreshErr.refreshFailed ∧
    (obtainNewAccessToken opts store net).store opts.accessTokenStorage
      opts.accessTokenStorageKey = "" ∧
    (obtainNewAccessToken opts store net).store opts.refreshTokenStorage
      opts.refreshTokenStorageKey = "" := by
  have hpost : axiosPost net = Except.error () := by
    rcases hfail with rfl | ⟨s, b, rfl, hs⟩
    · rfl
    · have : ¬ (200 ≤ s ∧ s < 300) := by omega
      simp [axiosPost, this]
  simp only [obtainNewAccessToken, if_neg hend, hpost]
  exact ⟨trivial, clearStorage_access opts store,
    clearStorage_refresh opts store⟩

/-- C2 witness: with the scenario configuration and a refresher that
fails with status 500, both storage entries end up empty and the
operation rejects with the refresh failure. -/
theorem claim2_clears_witness :
    (obtainNewAccessToken optsDefault storeWithTokens
        (NetOutcome.response 500 ⟨"", none⟩)).result =
      Except.error RefreshErr.refreshFailed ∧
    (obtainNewAccessToken optsDefault storeWithTokens
        (NetOutcome.response 500 ⟨"", none⟩)).store Storages.localStorage
      "ak" = "" := by
  have h := claim2_clears_on_post_rejection optsDefault storeWithTokens
    (NetOutcome.response 500 ⟨"", none⟩) (by decide)
    (Or.inr ⟨500, ⟨"", none⟩, rfl, by omega⟩)
  exact ⟨h.1, h.2.1⟩

/-- C5: a 401 response whose originating request url equals the
configured refresher endpoint clears both stored token entries and
propagates the rejection unchanged: no refresh is awaited and no
resubmission happens. -/
theorem claim5_refresher_401_terminal (opts : AxiosInstanceOptions)
    (store : Store) (err : ErrorInfo) (refresh : Except RefreshErr String)
    (h401 : err.status = some 401)
    (hurl : err.config.url = opts.accessTokenRefresherEndpoint) :
    (responseErrorInterceptor opts store err refresh).outcome =
      RecoveryOutcome.passThrough ∧
    (responseErrorInterceptor opts store err refresh).refreshAwaited =
      false ∧
    (responseErrorInterceptor opts store err refresh).store
      opts.accessTokenStorage opts.accessTokenStorageKey = "" ∧
    (responseErrorInterceptor opts store err refresh).store
      opts.refreshTokenStorage opts.refreshTokenStorageKey = "" := by
  simp only [responseErrorInterceptor, if_pos (And.intro h401 hurl)]
  exact ⟨trivial, trivial, clearStorage_access opts store,
    clearStorage_refresh opts store⟩

/-- C5 witness: a 401 from the configured endpoint "/token" passes
through with both entries cleared and no refresh awaited. -/
theorem claim5_refresher_401_terminal_witness :
    (responseErrorInterceptor optsDefault storeWithTokens
        ⟨some 401, ⟨"/token", "AT"⟩⟩ (Except.ok "T2")).outcome =
      RecoveryOutcome.passThrough ∧
    (responseErrorInterceptor optsDefault storeWithTokens
        ⟨some 401, ⟨"/token", "AT"⟩⟩ (Except.ok "T2")).store
      Storages.localStorage "ak" = "" := by
  have h := claim5_refresher_401_terminal optsDefault storeWithTokens
    ⟨some 401, ⟨"/token", "AT"⟩⟩ (Except.ok "T2") rfl rfl
  exact ⟨h.1, h.2.2.1⟩

/-- C3: when the stored access token is malformed (the expiry-claim
decode yields no claim), the request interceptor treats the token as
expired: it awaits the refresh closure, on success attaches the renewed
token to the request, and in no case rejects with a decode error. -/
theorem claim3_decode_failure_treated_as_expired
    (opts : AxiosInstanceOptions) (store : Store) (nowMs : Nat) (req : Req)
    (refresh : Except RefreshErr String)
    (hmal : jwtDecode (getStorage store opts.accessTokenStorage
      opts.accessTokenStorageKey "") = none) :
    (requestInterceptor opts store nowMs req refresh).refreshAwaited =
      true ∧
    (∀ t, refresh = Except.ok t →
      (requestInterceptor opts store nowMs req refresh).result =
        Except.ok { req with authorization := t }) ∧
    (requestInterceptor opts store nowMs req refresh).result ≠
      Except.error InterceptErr.decodeErr := by
  cases refresh with
  | ok t =>
      refine ⟨by simp [requestInterceptor, hmal], ?_,
        by simp [requestInterceptor, hmal]⟩
      intro s hs
      cases hs
      simp [requestInterceptor, hmal]
  | error e =>
      refine ⟨by simp [requestInterceptor, hmal], ?_,
        by simp [requestInterceptor, hmal]⟩
      intro s hs
      exact absurd hs (by simp)

/-- C3 witness: with the malformed stored token "garbage" and a refresh
that resolves with the fresh token, the interceptor awaits the refresh
and attaches the fresh token. -/
theorem claim3_decode_failure_witness :
    (requestInterceptor optsDefault
        (setStorage Store.empty Storages.localStorage "ak" "garbage") 0
        ⟨"/api", ""⟩ (Except.ok "exp:99")).refreshAwaited = true ∧
    (requestInterceptor optsDefault
        (setStorage Store.empty Storages.localStorage "ak" "garbage") 0
        ⟨"/api", ""⟩ (Except.ok "exp:99")).result =
      Except.ok ⟨"/api", "exp:99"⟩ := by
  have h := claim3_decode_failure_treated_as_expired optsDefault
    (setStorage Store.empty Storages.localStorage "ak" "garbage") 0
    ⟨"/api", ""⟩ (Except.ok "exp:99") (by decide)
  exact ⟨h.1, h.2.1 "exp:99" rfl⟩

/-- C7: when the stored access token decodes to an expiry that is not in
the past at send time (exp in seconds, compared strictly in
milliseconds), the request interceptor attaches the stored token itself
and does not await the refresh closure, so no refresher call occurs for
this request. -/
theorem claim7_not_expired_no_refresh (opts : AxiosInstanceOptions)
    (store : Store) (nowMs : Nat) (req : Req)
    (refresh : Except RefreshErr String) (exp : Nat)
    (hdec : jwtDecode (getStorage store opts.accessTokenStorage
      opts.accessTokenStorageKey "") = some exp)
    (hfresh : ¬ exp * 1000 < nowMs) :
    (requestInterceptor opts store nowMs req refresh).refreshAwaited =
      false ∧
    (requestInterceptor opts store nowMs req refresh).result =
      Except.ok
        { req with
          authorization := getStorage store opts.accessTokenStorage
            opts.accessTokenStorageKey "" } := by
  simp [requestInterceptor, hdec, hfresh]

/-- C7 witness: a stored token with expiry far in the future is attached
as-is and the refresh closure is never consulted. -/
theorem claim7_not_expired_witness :
    (requestInterceptor optsDefault
        (setStorage Store.empty Storages.localStorage "ak" "exp:2000000000")
        1000000 ⟨"/api", ""⟩ (Except.error RefreshErr.refreshFailed)
      ).refreshAwaited = false ∧
    (requestInterceptor optsDefault
        (setStorage Store.empty Storages.localStorage "ak" "exp:2000000000")
        1000000 ⟨"/api", ""⟩ (Except.error RefreshErr.refreshFailed)
      ).result = Except.ok ⟨"/api", "exp:2000000000"⟩ := by
  have h := claim7_not_expired_no_refresh optsDefault
    (setStorage Store.empty Storages.localStorage "ak" "exp:2000000000")
    1000000 ⟨"/api", ""⟩ (Except.error RefreshErr.refreshFailed)
    2000000000 (by decide) (by decide)
  refine ⟨h.1, ?_⟩
  rw [h.2]
  rfl

/-- C4 counterexample: the resubmitted request travels through the same
axios instance and therefore through the same interceptors, and the
handler carries no marker distinguishing a resubmission from a first
attempt (there is no retry flag on the request). Applying the handler to
the 401 returned by the resubmitted request — here the request whose
Authorization header was already overwritten with the renewed token from
the first recovery — yields another refresh wait and another
resubmission, not the pass-through the claim requires: the second 401 is
intercepted again by the same recovery step rather than returned to the
caller unmodified. -/
theorem claim4_counterexample :
    (responseErrorInterceptor optsDefault storeWithTokens
        ⟨some 401, ⟨"/api", "T1"⟩⟩ (Except.ok "T2")).outcome =
      RecoveryOutcome.resubmit ⟨"/api", "T2"⟩ ∧
    (responseErrorInterceptor optsDefault storeWithTokens
        ⟨some 401, ⟨"/api", "T1"⟩⟩ (Except.ok "T2")).outcome ≠
      RecoveryOutcome.passThrough ∧
    (responseErrorInterceptor optsDefault storeWithTokens
        ⟨some 401, ⟨"/api", "T1"⟩⟩ (Except.ok "T2")).refreshAwaited =
      true := by
  refine ⟨?_, ?_, ?_⟩ <;> decide

/-- C4 as amended: each invocation of the response error handler on a
401 from a non-refresher endpoint performs exactly one refresh wait and
produces exactly one resubmission of the original request with its
Authorization header overwritten by the renewed token, leaving storage
untouched; but because the resubmission goes through the same
intercepted instance with no per-attempt guard, a second 401 on it
triggers this same recovery step again instead of being returned to the
caller unmodified. -/
theorem claim4_one_refresh_one_resubmission (opts : AxiosInstanceOptions)
    (store : Store) (err : ErrorInfo) (t : String)
    (h401 : err.status = some 401)
    (hurl : err.config.url ≠ opts.accessTokenRefresherEndpoint) :
    (responseErrorInterceptor opts store err (Except.ok t)).outcome =
      RecoveryOutcome.resubmit { err.config with authorization := t } ∧
    (responseErrorInterceptor opts store err (Except.ok t)).refreshAwaited =
      true ∧
    ∀ b k, (responseErrorInterceptor opts store err (Except.ok t)).store
      b k = store b k := by
  have hc : ¬ (err.status = some 401 ∧
      err.config.url = opts.accessTokenRefresherEndpoint) := by
    rintro ⟨_, h⟩
    exact hurl h
  simp only [responseErrorInterceptor, if_neg hc, if_pos h401]
  exact ⟨trivial, trivial, fun _ _ => trivial⟩

/-- C4 witness: a first 401 from "/api" with a refresh resolving to
"T1" is resubmitted once with the header overwritten to "T1", with one
refresh wait and storage untouched. -/
theorem claim4_one_refresh_one_resubmission_witness :
    (responseErrorInterceptor optsDefault storeWithTokens
        ⟨some 401, ⟨"/api", "AT"⟩⟩ (Except.ok "T1")).outcome =
      RecoveryOutcome.resubmit ⟨"/api", "T1"⟩ ∧
    (responseErrorInterceptor optsDefault storeWithTokens
        ⟨some 401, ⟨"/api", "AT"⟩⟩ (Except.ok "T1")).store
      Storages.localStorage "ak" = "AT" := by
  have h := claim4_one_refresh_one_resubmission optsDefault storeWithTokens
    ⟨some 401, ⟨"/api", "AT"⟩⟩ "T1" rfl (by decide)
  refine ⟨h.1, ?_⟩
  rw [h.2.2 Storages.localStorage "ak"]
  decide

/-- C6: when the refresher endpoint is configured, responds with status
200, and the extractors yield access token "A2" and refresh token "R2",
the completed refresh leaves "A2" in the access-token entry and "R2" in
the refresh-token entry (assuming the two entries are distinct) and the
refresh promise resolves with "A2". -/
theorem claim6_success_scenario (opts : AxiosInstanceOptions)
    (store : Store) (body : TokenBody)
    (hend : opts.accessTokenRefresherEndpoint ≠ "")
    (haccess : foundAccessToken opts body = "A2")
    (hrefresh : foundRefreshToken opts body = some "R2")
    (hdistinct : opts.refreshTokenStorage ≠ opts.accessTokenStorage ∨
      opts.refreshTokenStorageKey ≠ opts.accessTokenStorageKey) :
    (refreshRound opts store (NetOutcome.response 200 body)).1
      opts.accessTokenStorage opts.accessTokenStorageKey = "A2" ∧
    (refreshRound opts store (NetOutcome.response 200 body)).1
      opts.refreshTokenStorage opts.refreshTokenStorageKey = "R2" ∧
    (refreshRound opts store (NetOutcome.response 200 body)).2.2 =
      Except.ok "A2" := by
  have hd2 : opts.accessTokenStorage ≠ opts.refreshTokenStorage ∨
      opts.accessTokenStorageKey ≠ opts.refreshTokenStorageKey := by
    rcases hdistinct with h | h
    · exact Or.inl (Ne.symm h)
    · exact Or.inr (Ne.symm h)
  have hpost : axiosPost (NetOutcome.response 200 body) =
      Except.ok (200, body) := by
    simp [axiosPost]
  have htruthy : truthyToken (foundRefreshToken opts body) = true := by
    rw [hrefresh]
    rfl
  have hround : refreshRound opts store (NetOutcome.response 200 body) =
      (setStorage (setStorage (setStorage (setStorage store
            opts.accessTokenStorage opts.accessTokenStorageKey "A2")
          opts.refreshTokenStorage opts.refreshTokenStorageKey "R2")
          opts.accessTokenStorage opts.accessTokenStorageKey "A2")
        opts.refreshTokenStorage opts.refreshTokenStorageKey "R2",
       some ⟨getStorage store opts.refreshTokenStorage
          opts.refreshTokenStorageKey ""⟩,
       Except.ok "A2") := by
    simp [refreshRound, obtainNewAccessToken, refreshThen, if_neg hend,
      hpost, haccess, hrefresh, truthyToken, Option.getD]
  simp only [hround]
  refine ⟨?_, ?_, trivial⟩
  · rw [setStorage_other _ _ _ _ _ _ hd2]
    exact setStorage_same _ _ _ _
  · exact setStorage_same _ _ _ _

/-- C6 witness: the scenario configuration with endpoint "/token",
default extractors, and a 200 response carrying accessToken "A2" and
refreshToken "R2" leaves "A2"/"R2" in storage and resolves with "A2". -/
theorem claim6_success_scenario_witness :
    (refreshRound optsDefault Store.empty
        (NetOutcome.response 200 ⟨"A2", some "R2"⟩)).1
      Storages.localStorage "ak" = "A2" ∧
    (refreshRound optsDefault Store.empty
        (NetOutcome.response 200 ⟨"A2", some "R2"⟩)).1
      Storages.localStorage "rk" = "R2" ∧
    (refreshRound optsDefault Store.empty
        (NetOutcome.response 200 ⟨"A2", some "R2"⟩)).2.2 =
      Except.ok "A2" := by
  have h := claim6_success_scenario optsDefault Store.empty
    ⟨"A2", some "R2"⟩ (by decide) rfl rfl (Or.inr (by decide))
  exact h

/-- C10: a successful refresh (status 200) whose extracted refresh token
is absent or empty leaves the refresh-token storage entry exactly as it
was (assuming the two entries are distinct) while the access-token entry
is overwritten with the newly extracted access token. -/
theorem claim10_refresh_token_frame (opts : AxiosInstanceOptions)
    (store : Store) (body : TokenBody)
    (hend : opts.accessTokenRefresherEndpoint ≠ "")
    (hfalsy : truthyToken (foundRefreshToken opts body) = false)
    (hdistinct : opts.refreshTokenStorage ≠ opts.accessTokenStorage ∨
      opts.refreshTokenStorageKey ≠ opts.accessTokenStorageKey) :
    (refreshRound opts store (NetOutcome.response 200 body)).1
      opts.refreshTokenStorage opts.refreshTokenStorageKey =
      store opts.refreshTokenStorage opts.refreshTokenStorageKey ∧
    (refreshRound opts store (NetOutcome.response 200 body)).1
      opts.accessTokenStorage opts.accessTokenStorageKey =
      foundAccessToken opts body := by
  have hpost : axiosPost (NetOutcome.response 200 body) =
      Except.ok (200, body) := by
    simp [axiosPost]
  have hgetD := getD_empty_of_not_truthy (foundRefreshToken opts body) hfalsy
  have hround : refreshRound opts store (NetOutcome.response 200 body) =
      (setStorage (setStorage store opts.accessTokenStorage
          opts.accessTokenStorageKey (foundAccessToken opts body))
        opts.accessTokenStorage opts.accessTokenStorageKey
        (foundAccessToken opts body),
       some ⟨getStorage store opts.refreshTokenStorage
          opts.refreshTokenStorageKey ""⟩,
       Except.ok (foundAccessToken opts body)) := by
    simp [refreshRound, obtainNewAccessToken, refreshThen, if_neg hend,
      hpost, hfalsy, hgetD]
  simp only [hround]
  constructor
  · rw [setStorage_other _ _ _ _ _ _ hdistinct,
      setStorage_other _ _ _ _ _ _ hdistinct]
  · exact setStorage_same _ _ _ _

/-- C10 witness: a 200 response with no refreshToken field leaves the
stored refresh token "RT" untouched and overwrites the access token
with "A2". -/
theorem claim10_refresh_token_frame_witness :
    (refreshRound optsDefault storeWithTokens
        (NetOutcome.response 200 ⟨"A2", none⟩)).1
      Storages.localStorage "rk" = "RT" ∧
    (refreshRound optsDefault storeWithTokens
        (NetOutcome.response 200 ⟨"A2", none⟩)).1
      Storages.localStorage "ak" = "A2" := by
  have h := claim10_refresh_token_frame optsDefault storeWithTokens
    ⟨"A2", none⟩ (by decide) rfl (Or.inr (by decide))
  exact ⟨h.1.trans (by decide), h.2.trans (by decide)⟩

/-- C8 is contradicted by the code: the `AxiosInstanceOptions` interface
of the source has no `isBearer` field at all (see the structure above,
mirroring src/src/index.ts lines 17-30), and the request interceptor
always writes the raw token into the Authorization header, never a
Bearer-prefixed form. Concretely, with a valid non-expired stored token,
the attached header is exactly the raw token and differs from the
Bearer-prefixed header the documented isBearer flag would produce. -/
theorem claim8_raw_token_always :
    (requestInterceptor optsDefault
        (setStorage Store.empty Storages.localStorage "ak" "exp:2000000000")
        1000000 ⟨"/api", ""⟩ (Except.error RefreshErr.refreshFailed)
      ).result = Except.ok ⟨"/api", "exp:2000000000"⟩ ∧
    (requestInterceptor optsDefault
        (setStorage Store.empty Storages.localStorage "ak" "exp:2000000000")
        1000000 ⟨"/api", ""⟩ (Except.error RefreshErr.refreshFailed)
      ).result ≠ Except.ok ⟨"/api", "Bearer exp:2000000000"⟩ := by
  have h1 : (requestInterceptor optsDefault
      (setStorage Store.empty Storages.localStorage "ak" "exp:2000000000")
      1000000 ⟨"/api", ""⟩ (Except.error RefreshErr.refreshFailed)
    ).result = Except.ok ⟨"/api", "exp:2000000000"⟩ := rfl
  refine ⟨h1, ?_⟩
  rw [h1]
  simp

/-- C9 is contradicted by the code in its generator case: the interface
has no `tokenRefresherPayloadGenerator` field, and the body POSTed to
the refresher endpoint is always the hardcoded `{token: <stored refresh
token>}` (src/src/index.ts lines 111-121); only the default case of the
claim matches the code. Whenever the endpoint is configured (so that a
POST is attempted at all), the posted payload is exactly that object. -/
theorem claim9_payload_hardcoded (opts : AxiosInstanceOptions)
    (store : Store) (net : NetOutcome)
    (hend : opts.accessTokenRefresherEndpoint ≠ "") :
    (obtainNewAccessToken opts store net).posted =
      some ⟨getStorage store opts.refreshTokenStorage
        opts.refreshTokenStorageKey ""⟩ := by
  simp only [obtainNewAccessToken, if_neg hend]
  cases haxios : axiosPost net with
  | error e => simp [haxios]
  | ok sb =>
      obtain ⟨s, b⟩ := sb
      by_cases hs : s = 200 <;> simp [haxios, hs]

/-- C9 witness: with the stored refresh token "RT", the POSTed body is
the object with its single `token` field holding "RT". -/
theorem claim9_payload_hardcoded_witness :
    (obtainNewAccessToken optsDefault storeWithTokens
        NetOutcome.transportError).posted = some ⟨"RT"⟩ := by
  have h := claim9_payload_hardcoded optsDefault storeWithTokens
    NetOutcome.transportError (by decide)
  rw [h]
  rfl
